import Mathlib

/-
Verification of the GEE downloader service layer (geedownloader/services.py and
geedownloader/views.py) against its natural-language specification.

Each Python service method is shallowly embedded as a total Lean function over
an explicit environment record that captures the outcomes of the remote Earth
Engine calls the method performs (`Thrown` models a call that either raises an
exception carrying a message, or returns a value).  Python truthiness,
exception handlers and string formatting are translated point by point from the
source.  Datetimes are modelled as rationals (millisecond timestamps divided by
1000, as in `datetime.fromtimestamp(t / 1000)`), which is order-faithful.
-/

/-- Outcome of one remote call: it raises an exception whose `str()` is `msg`,
or returns a value. -/
inductive Thrown (α : Type) where
  | raises (msg : String)
  | ok (val : α)
deriving DecidableEq

/-- Substring containment on lists of characters: Python's `needle in haystack`. -/
def listContainsSub (hay nee : List Char) : Bool :=
  (List.range (hay.length + 1)).any fun i => nee.isPrefixOf (hay.drop i)

/-- Python's `needle in haystack` on strings. -/
def strContains (hay nee : String) : Bool :=
  listContainsSub hay.data nee.data

/-- Python truthiness of an optional string (`None` and `""` are falsy). -/
def pyTruthyStr (o : Option String) : Bool :=
  match o with
  | none => false
  | some s => s ≠ ""

/-- Python's `int()` applied to a rational: truncation toward zero. -/
def pyInt (q : ℚ) : ℤ :=
  let m : ℕ := q.num.natAbs / q.den
  if 0 ≤ q.num then (m : ℤ) else -(m : ℤ)

/-- Python's `min` of a list of integers (the code only calls it on non-empty
lists; the default on `[]` is irrelevant). -/
def listMinZ : List ℤ → ℤ
  | [] => 0
  | x :: xs => xs.foldl min x

/-- Python's `max` of a list of integers. -/
def listMaxZ : List ℤ → ℤ
  | [] => 0
  | x :: xs => xs.foldl max x

/-- `datetime.fromtimestamp(t / 1000)` applied to a millisecond timestamp,
modelled on the rational time axis. -/
def tsToDatetime (t : ℤ) : ℚ := (t : ℚ) / 1000

/-- A band dictionary (`{'id': ..., 'name': ..., 'description': ...}`). -/
structure Band where
  id : String
  name : String
  descr : String
deriving DecidableEq

/-- The `bands` entry of a metadata dictionary: absent (`.get('bands', [])`
yields `[]`), present but not a list (with its Python truthiness), or a list. -/
inductive BandsField where
  | missing
  | nonList (truthy : Bool)
  | ofList (bands : List Band)
deriving DecidableEq

/-- A metadata dictionary as returned by `ee.data.getInfo`: the fields the
service layer reads. `none` on an optional field models an absent key. -/
structure AccessInfo where
  typ : Option String
  bands : BandsField
  descr : Option String
  title : Option String
  hasProps : Bool
  propDescr : Option String
  propTitle : Option String
  keywords : List String
  propKeywords : List String
deriving DecidableEq

/-- Environment of `GEEService.validate_date_range` (services.py:878-921):
outcomes of the remote calls it performs, in source order. -/
structure ValEnv where
  /-- `ee.data.getInfo(dataset_id)`; `ok none` models a falsy result. -/
  getInfo : Thrown (Option AccessInfo)
  /-- `ee.ImageCollection(dataset_id).aggregate_array('system:time_start').getInfo()`. -/
  collDates : Thrown (Option (List ℤ))
  /-- `ee.Image(dataset_id)` in the inner `except` fallback. -/
  imageLoad : Thrown Unit
  /-- `datetime.strptime(start_date, '%Y-%m-%d')` on the rational time axis. -/
  parseStart : Thrown ℚ
  /-- `datetime.strptime(end_date, '%Y-%m-%d')`. -/
  parseEnd : Thrown ℚ

/-- `basic_info and basic_info.get('type') == 'IMAGE'` (services.py:883). -/
def infoIsImage (infoOpt : Option AccessInfo) : Bool :=
  match infoOpt with
  | some i => decide (i.typ = some "IMAGE")
  | none => false

/-- `GEEService.validate_date_range` (services.py:878-921). -/
def validate_date_range (env : ValEnv) : Bool :=
  match env.getInfo with
  | .raises _ => true
  | .ok infoOpt =>
    if infoIsImage infoOpt then
      true
    else
      match env.collDates with
      | .raises _ =>
        -- inner `except`: try to load as Image; both outcomes return True
        (match env.imageLoad with
         | .ok _ => true
         | .raises _ => true)
      | .ok datesOpt =>
        match datesOpt with
        | none => true
        | some dates =>
          if dates = [] then true
          else
            match env.parseStart, env.parseEnd with
            | .ok s, .ok e =>
              decide (tsToDatetime (listMinZ dates) ≤ e ∧ s ≤ tsToDatetime (listMaxZ dates))
            | _, _ =>
              -- a `strptime` failure lands in the same inner `except`
              (match env.imageLoad with
               | .ok _ => true
               | .raises _ => true)

/-- C1: for IMAGE assets `validate_date_range` is true regardless of the range;
for collections with a non-empty timestamp set it is true iff the requested
interval overlaps `[min T, max T]` (overlap, not containment); and it is true
whenever timestamp retrieval fails or yields an empty set. -/
theorem validate_date_range_availability (env : ValEnv) :
    (∀ i, env.getInfo = .ok (some i) → i.typ = some "IMAGE" →
      validate_date_range env = true) ∧
    (∀ infoOpt dates s e,
      env.getInfo = .ok infoOpt →
      infoIsImage infoOpt = false →
      env.collDates = .ok (some dates) → dates ≠ [] →
      env.parseStart = .ok s → env.parseEnd = .ok e →
      (validate_date_range env = true ↔
        (tsToDatetime (listMinZ dates) ≤ e ∧ s ≤ tsToDatetime (listMaxZ dates)))) ∧
    (∀ m, env.collDates = .raises m → env.getInfo ≠ .raises m → validate_date_range env = true) ∧
    (∀ infoOpt, env.getInfo = .ok infoOpt →
      (env.collDates = .ok none ∨ env.collDates = .ok (some [])) →
      validate_date_range env = true) ∧
    (∀ m, env.getInfo = .raises m → validate_date_range env = true) := by
  refine ⟨?_, ?_, ?_, ?_, ?_⟩
  · intro i hgi htyp
    simp [validate_date_range, hgi, infoIsImage, htyp]
  · intro infoOpt dates s e hgi htyp hcd hne hps hpe
    simp only [validate_date_range, hgi, hcd, htyp, if_false, hps, hpe, if_neg hne]
    constructor
    · intro h
      exact of_decide_eq_true h
    · intro h
      exact decide_eq_true h
  · intro m hcd hgi
    cases hg : env.getInfo with
    | raises m' => simp [validate_date_range, hg]
    | ok infoOpt =>
      simp only [validate_date_range, hg, hcd]
      cases h : infoIsImage infoOpt with
      | true => simp [h]
      | false =>
        simp only [Bool.false_eq_true, if_false]
        cases env.imageLoad <;> rfl
  · intro infoOpt hgi hcd
    simp only [validate_date_range, hgi]
    cases h : infoIsImage infoOpt with
    | true => simp [h]
    | false =>
      rcases hcd with hcd | hcd <;> simp [h, hcd]
  · intro m hgi
    simp [validate_date_range, hgi]

/-- Witness for C1 at concrete environments: an IMAGE asset with any range, a
collection whose window `[1000000, 90000000]` (ms) is tested against a
requested range, and a failed timestamp retrieval. -/
theorem validate_date_range_availability_witness :
    (validate_date_range
      { getInfo := .ok (some { typ := some "IMAGE", bands := .missing, descr := none,
                               title := none, hasProps := false, propDescr := none,
                               propTitle := none, keywords := [], propKeywords := [] }),
        collDates := .ok (some []), imageLoad := .ok (), parseStart := .ok 0,
        parseEnd := .ok 0 } = true) ∧
    (validate_date_range
      { getInfo := .ok none,
        collDates := .ok (some [1000000, 90000000]), imageLoad := .ok (),
        parseStart := .ok 500, parseEnd := .ok 2000 } = true ↔
      (tsToDatetime (listMinZ [1000000, 90000000]) ≤ (2000 : ℚ) ∧
        (500 : ℚ) ≤ tsToDatetime (listMaxZ [1000000, 90000000]))) ∧
    (validate_date_range
      { getInfo := .ok none, collDates := .raises "backend error", imageLoad := .raises "x",
        parseStart := .ok 0, parseEnd := .ok 0 } = true) := by
  refine ⟨?_, ?_, ?_⟩
  · exact (validate_date_range_availability _).1 _ rfl rfl
  · exact (validate_date_range_availability _).2.1 none [1000000, 90000000] 500 2000
      rfl rfl rfl (by decide) rfl rfl
  · exact (validate_date_range_availability _).2.2.1 "backend error" rfl (by decide)

/-- Outcome of `ee.data.getInfo(dataset_id)` in `check_dataset_access`: the two
Python handler classes are distinguished, since the code classifies
`ee.ee_exception.EEException` separately from other exceptions. -/
inductive GetInfoOutcome where
  | eeRaises (msg : String)
  | otherRaises (msg : String)
  | ok (info : Option AccessInfo)
deriving DecidableEq

/-- Environment of `GEEService.check_dataset_access` (services.py:1028-1102). -/
structure CDEnv where
  /-- `ee.Initialize(project=project_name)`, consulted only when a project id
  is supplied. -/
  initOutcome : Thrown Unit
  /-- `ee.Image(dataset_id).bandNames().getInfo()`. -/
  imageBands : Thrown Unit
  /-- `ee.ImageCollection(dataset_id).size().getInfo()`. -/
  collSize : Thrown Unit
  /-- `ee.data.getInfo(dataset_id)`. -/
  getInfo : GetInfoOutcome
deriving DecidableEq

/-- Result dictionary of `check_dataset_access`: `{'success': True, 'info': ...}`
or `{'success': False, 'error': ..., 'message': ...?}`. -/
inductive AccessRes where
  | ok (info : AccessInfo)
  | fail (error : String) (message : Option String)
deriving DecidableEq

/-- The `{'type': t}` dictionaries built at services.py:1057 and 1066. -/
def typeOnlyInfo (t : String) : AccessInfo :=
  { typ := some t, bands := .missing, descr := none, title := none,
    hasProps := false, propDescr := none, propTitle := none,
    keywords := [], propKeywords := [] }

/-- The keyword test at services.py:1042 (and 201/209):
`"Permission denied" in msg or "not found" in msg or
"does not have required permission" in msg`. -/
def permKeyword (m : String) : Bool :=
  strContains m "Permission denied" || strContains m "not found" ||
    strContains m "does not have required permission"

/-- The early return taken when `ee.Initialize(project=project_name)` fails
with a permission-flavoured message (services.py:1033-1049); `none` means the
function proceeds to the probe chain. -/
def cdAbortCheck (project_name : Option String) (env : CDEnv) : Option AccessRes :=
  if pyTruthyStr project_name then
    match env.initOutcome with
    | .raises m =>
      if permKeyword m then
        some (.fail "Project ID error"
          (some ("Permission error: Caller does not have required permission to use project "
            ++ project_name.getD "" ++ ". Please check that you are using the correct project ID.")))
      else none
    | .ok _ => none
  else none

/-- `GEEService.check_dataset_access` (services.py:1028-1102). -/
def check_dataset_access (project_name : Option String) (env : CDEnv) : AccessRes :=
  match cdAbortCheck project_name env with
  | some r => r
  | none =>
    match env.imageBands with
    | .ok _ => .ok (typeOnlyInfo "IMAGE")
    | .raises _ =>
      match env.collSize with
      | .ok _ => .ok (typeOnlyInfo "IMAGE_COLLECTION")
      | .raises _ =>
        match env.getInfo with
        | .ok (some info) => .ok info
        | .ok none => .fail "Dataset not found or not accessible" none
        | .eeRaises m =>
          if strContains m "does not have required permission" ||
              strContains m "permission denied" then
            .fail "Permission denied"
              (some ("Permission error: Caller does not have required permission to use this dataset. Error: " ++ m))
          else
            .fail "Unknown error" (some ("Error accessing dataset: " ++ m))
        | .otherRaises m =>
          .fail "Error checking dataset access" (some m)

/-- C4: `check_dataset_access` is an ordered fallback chain whose first success
wins: a retrievable band list classifies the asset IMAGE; otherwise a
retrievable collection size classifies it IMAGE_COLLECTION; otherwise the
generic metadata lookup's result is returned, and only when that final lookup
yields nothing is the not-found/no-access error reported.  Failures of the
first two probes are silent (the chain advances regardless of their messages). -/
theorem check_dataset_access_fallback_chain (project_name : Option String) (env : CDEnv)
    (hpre : cdAbortCheck project_name env = none) :
    (env.imageBands = .ok () →
      check_dataset_access project_name env = .ok (typeOnlyInfo "IMAGE")) ∧
    (∀ m1, env.imageBands = .raises m1 → env.collSize = .ok () →
      check_dataset_access project_name env = .ok (typeOnlyInfo "IMAGE_COLLECTION")) ∧
    (∀ m1 m2 info, env.imageBands = .raises m1 → env.collSize = .raises m2 →
      env.getInfo = .ok (some info) →
      check_dataset_access project_name env = .ok info) ∧
    (∀ m1 m2, env.imageBands = .raises m1 → env.collSize = .raises m2 →
      env.getInfo = .ok none →
      check_dataset_access project_name env =
        .fail "Dataset not found or not accessible" none) ∧
    (∀ e msg, check_dataset_access project_name env = .fail e msg →
      e = "Dataset not found or not accessible" →
      env.getInfo = .ok none) := by
  refine ⟨?_, ?_, ?_, ?_, ?_⟩
  · intro h
    simp [check_dataset_access, hpre, h]
  · intro m1 h1 h2
    simp [check_dataset_access, hpre, h1, h2]
  · intro m1 m2 info h1 h2 h3
    simp [check_dataset_access, hpre, h1, h2, h3]
  · intro m1 m2 h1 h2 h3
    simp [check_dataset_access, hpre, h1, h2, h3]
  · intro e msg hres he
    subst he
    simp only [check_dataset_access, hpre] at hres
    cases h1 : env.imageBands with
    | ok v => simp [h1] at hres
    | raises m1 =>
      simp only [h1] at hres
      cases h2 : env.collSize with
      | ok v => simp [h2] at hres
      | raises m2 =>
        simp only [h2] at hres
        cases h3 : env.getInfo with
        | ok infoOpt =>
          cases infoOpt with
          | none => rfl
          | some info => simp [h3] at hres
        | eeRaises m =>
          simp only [h3] at hres
          by_cases hk : (strContains m "does not have required permission" ||
              strContains m "permission denied") = true
          · rw [if_pos hk] at hres
            exact absurd (AccessRes.fail.inj hres).1 (by decide)
          · rw [if_neg hk] at hres
            exact absurd (AccessRes.fail.inj hres).1 (by decide)
        | otherRaises m =>
          simp only [h3] at hres
          exact absurd (AccessRes.fail.inj hres).1 (by decide)

/-- Witness for C4: a concrete run through each stage of the chain. -/
theorem check_dataset_access_fallback_chain_witness :
    (check_dataset_access none
      { initOutcome := .ok (), imageBands := .ok (), collSize := .raises "x",
        getInfo := .ok none } = .ok (typeOnlyInfo "IMAGE")) ∧
    (check_dataset_access none
      { initOutcome := .ok (), imageBands := .raises "not an image",
        collSize := .ok (), getInfo := .ok none } =
      .ok (typeOnlyInfo "IMAGE_COLLECTION")) ∧
    (check_dataset_access none
      { initOutcome := .ok (), imageBands := .raises "not an image",
        collSize := .raises "not a collection", getInfo := .ok none } =
      .fail "Dataset not found or not accessible" none) := by
  refine ⟨?_, ?_, ?_⟩
  · exact (check_dataset_access_fallback_chain none _ rfl).1 rfl
  · exact (check_dataset_access_fallback_chain none _ rfl).2.1 "not an image" rfl rfl
  · exact (check_dataset_access_fallback_chain none _ rfl).2.2.2.1 "not an image"
      "not a collection" rfl rfl rfl

/-- The placeholder band synthesized at services.py:554-558. -/
def defaultBand : Band :=
  { id := "default", name := "Default Band", descr := "Default band for this dataset" }

/-- Environment of `GEEService.get_available_variables` (services.py:480-611). -/
structure GavEnv where
  /-- `ee.Initialize(project=project_name)` at services.py:490 (failures are
  tolerated: both outcomes continue). -/
  initOutcome : Thrown Unit
  /-- environment of the nested `check_dataset_access` call. -/
  cd : CDEnv
  /-- `ee.ImageCollection(dataset_id).first().getInfo()` then
  `.get('bands', [])` (services.py:540-542). -/
  firstImageBands : Thrown BandsField
deriving DecidableEq

/-- Result dictionary of `get_available_variables`. -/
structure VarResult where
  /-- the `'variables'` key of the returned dictionary -/
  vars : List Band
  descr : String
  tags : List String
  title : String
  error : Option String
deriving DecidableEq

/-- Python truthiness of a `bands` value (services.py:552 `if not bands_info`). -/
def bandsTruthy (b : BandsField) : Bool :=
  match b with
  | .missing => false
  | .nonList t => t
  | .ofList l => l ≠ []

/-- Band resolution inside `get_available_variables` (services.py:534-550):
`basic_info.get('bands', [])`, the first-member fallback for collections, and
the `isinstance(bands_info, list)` guard — the value of `bands_info` just
before the placeholder synthesis at services.py:552. -/
def resolveBands (info : AccessInfo) (firstImageBands : Thrown BandsField) : List Band :=
  let bands1 := info.bands
  let bands2 :=
    if bandsTruthy bands1 = false ∧ info.typ = some "IMAGE_COLLECTION" then
      match firstImageBands with
      | .ok fb => fb
      | .raises _ => bands1
    else bands1
  match bands2 with
  | .ofList l => l
  | .nonList _ => []
  | .missing => []

/-- `GEEService.get_available_variables` (services.py:480-611). -/
def get_available_variables (dataset_id : String) (project_name : Option String)
    (env : GavEnv) : VarResult :=
  match check_dataset_access project_name env.cd with
  | .fail e msg =>
    let m := msg.getD e
    { vars := [{ id := "default", name := "Default Band",
                      descr := "Error accessing dataset: " ++ m }],
      descr := "Error: " ++ m, tags := [], title := dataset_id, error := some m }
  | .ok info =>
    let d0 := info.descr.getD ""
    let d := if d0 = "" ∧ info.hasProps then info.propDescr.getD "" else d0
    let t0 := info.title.getD ""
    let t := if t0 = "" ∧ info.hasProps then info.propTitle.getD "" else t0
    let tags := (info.keywords ++ info.propKeywords).dedup
    let bands := resolveBands info env.firstImageBands
    let bands4 := if bands = [] then [defaultBand] else bands
    { vars := bands4, descr := d, tags := tags, title := t, error := none }

/-- C3: for a successfully resolved asset the returned variables list is
non-empty, and when band resolution (including the collection first-member
fallback) yields zero bands, the result is exactly the synthesized placeholder
band with id "default". -/
theorem get_available_variables_nonempty (dataset_id : String)
    (project_name : Option String) (env : GavEnv) (info : AccessInfo)
    (hok : check_dataset_access project_name env.cd = .ok info) :
    (get_available_variables dataset_id project_name env).vars ≠ [] ∧
    (resolveBands info env.firstImageBands = [] →
      (get_available_variables dataset_id project_name env).vars = [defaultBand]) ∧
    (resolveBands info env.firstImageBands ≠ [] →
      (get_available_variables dataset_id project_name env).vars =
        resolveBands info env.firstImageBands) ∧
    defaultBand.id = "default" := by
  refine ⟨?_, ?_, ?_, rfl⟩
  · simp only [get_available_variables, hok]
    by_cases h : resolveBands info env.firstImageBands = []
    · simp [h]
    · simp [h]
  · intro h
    simp [get_available_variables, hok, h]
  · intro h
    simp [get_available_variables, hok, h]

/-- Witness for C3: an IMAGE_COLLECTION asset whose declared bands are empty and
whose first member also exposes none yields exactly the placeholder band. -/
theorem get_available_variables_nonempty_witness :
    (get_available_variables "MODIS/006/MOD13A2" none
      { initOutcome := .ok (),
        cd := { initOutcome := .ok (), imageBands := .raises "not an image",
                collSize := .ok (), getInfo := .ok none },
        firstImageBands := .ok (.ofList []) }).vars = [defaultBand] := by
  have h := get_available_variables_nonempty "MODIS/006/MOD13A2" none
    { initOutcome := .ok (),
      cd := { initOutcome := .ok (), imageBands := .raises "not an image",
              collSize := .ok (), getInfo := .ok none },
      firstImageBands := .ok (.ofList []) }
    (typeOnlyInfo "IMAGE_COLLECTION") rfl
  exact h.2.1 rfl

/-- Environment of `GEEService.get_dataset_temporal_info` (services.py:613-673).
`fmtDate` models `datetime.fromtimestamp(t / 1000).strftime('%Y-%m-%d')`
applied to a raw millisecond timestamp. -/
structure TempEnv where
  initOutcome : Thrown Unit
  /-- `ee.Image(dataset_id).get('system:time_start').getInfo()`. -/
  imageTime : Thrown (Option ℤ)
  /-- `ee.ImageCollection(dataset_id).aggregate_array('system:time_start').getInfo()`. -/
  collDates : Thrown (Option (List ℤ))
  fmtDate : ℤ → String

/-- `GEEService.get_dataset_temporal_info` (services.py:613-673), returning the
`(start_date, end_date)` pair (`none` models JSON null). -/
def get_dataset_temporal_info (env : TempEnv) : Option String × Option String :=
  let viaImage : Option (Option String × Option String) :=
    match env.imageTime with
    | .ok (some t) =>
      -- `if date:` — a zero timestamp is falsy and falls through
      if t = 0 then none
      else some (some (env.fmtDate t), some (env.fmtDate t))
    | _ => none
  match viaImage with
  | some r => r
  | none =>
    match env.collDates with
    | .ok (some dates) =>
      if dates = [] then (none, none)
      else (some (env.fmtDate (listMinZ dates)), some (env.fmtDate (listMaxZ dates)))
    | _ => (none, none)

/-- `if date_info.get('start_date') and date_info.get('end_date'):` followed by
the f-string at services.py:287. -/
def availableRangeStr (ti : Option String × Option String) : String :=
  if pyTruthyStr ti.1 ∧ pyTruthyStr ti.2 then
    " Data is available from " ++ ti.1.getD "" ++ " to " ++ ti.2.getD "" ++ "."
  else ""

/-- The error message built at services.py:283-291 when a filtered collection
is empty. -/
def noDataMessage (start_date end_date : String) (temporal : TempEnv) : String :=
  "No data available for the selected date range (" ++ start_date ++ " to "
    ++ end_date ++ ")." ++ availableRangeStr (get_dataset_temporal_info temporal)
    ++ " Please try a different date range."

/-- Split a character list on a separator character (Python's `str.split`),
by structural recursion so that it reduces in the kernel. -/
def splitOnCharList (sep : Char) : List Char → List (List Char)
  | [] => [[]]
  | c :: rest =>
    let r := splitOnCharList sep rest
    if c = sep then [] :: r
    else
      match r with
      | [] => [[c]]
      | h :: t => (c :: h) :: t

/-- Python's `s.split(sep)` for a one-character separator. -/
def pySplit (s : String) (sep : Char) : List String :=
  (splitOnCharList sep s.data).map fun l => ⟨l⟩

/-- Python's `s.replace(old, new)` for one-character arguments. -/
def pyReplaceChar (old new : Char) (s : String) : String :=
  ⟨s.data.map fun c => if c = old then new else c⟩

/-- Python's `s.lower()` (kernel-reducible form of `String.toLower`). -/
def pyLower (s : String) : String :=
  ⟨s.data.map Char.toLower⟩

/-- `dataset_id.split('/')[-1]` when `'/' in dataset_id`, else
`str(dataset_id).replace('/', '_')` (services.py:301-304 and 988-991). -/
def filenameBase (dataset_id : String) : String :=
  if strContains dataset_id "/" then (pySplit dataset_id '/').getLastD dataset_id
  else pyReplaceChar '/' '_' dataset_id

/-- The output name of the asynchronous export path (services.py:299-310):
`f"{filename_base}_{variable}_{date_suffix}"` with
`date_suffix = start_date` when the dates agree, else
`f"{start_date}_to_{end_date}"`. -/
def asyncOutputName (dataset_id bandVar start_date end_date : String) : String :=
  let date_suffix := if start_date = end_date then start_date
                     else start_date ++ "_to_" ++ end_date
  filenameBase dataset_id ++ "_" ++ bandVar ++ "_" ++ date_suffix

/-- The output name of the direct-URL path (services.py:987-993):
`f'{filename_base}_{variable}_{start_date}_{end_date}'`. -/
def urlOutputName (dataset_id bandVar start_date end_date : String) : String :=
  filenameBase dataset_id ++ "_" ++ bandVar ++ "_" ++ start_date ++ "_" ++ end_date

/-- Result of `geojson.loads(region)` after the structural check at
services.py:225: either the parsed value is falsy / not a dict / has a falsy
`features` entry, or features are present. -/
inductive RegionVal where
  | noFeatures
  | featuresPresent
deriving DecidableEq

/-- The keyword arguments of `ee.batch.Export.image.toDrive` at
services.py:320-329 (besides the image and region objects). -/
structure ExportParams where
  descr : String
  folder : String
  scale : ℤ
  crs : String
  fileFormat : String
  maxPixels : ℤ
deriving DecidableEq

/-- Result dictionary of `start_download_task`: `{'error': ...}` or the
success dictionary of services.py:338-344. -/
inductive StartRes where
  | err (msg : String)
  | started (taskId : String) (descr : String) (folder : String) (filename : String)
deriving DecidableEq

/-- Observable outcome of one `start_download_task` run: its return value,
the `toDrive` submission attempt (if any) with its parameters, and whether
control reached the region-parsing step. -/
structure StartOut where
  res : StartRes
  submitted : Option ExportParams
  reachedRegionParse : Bool
deriving DecidableEq

/-- Environment of `GEEService.start_download_task` (services.py:143-353). -/
structure StartEnv where
  /-- `ee.Initialize(project=project_name)` (services.py:190). -/
  initOutcome : Thrown Unit
  /-- `ee.Number(1).add(2).getInfo()` (services.py:196). -/
  verifyTest : Thrown ℤ
  /-- `geojson.loads(region)` plus the structural check (services.py:214-227). -/
  regionLoads : Thrown RegionVal
  /-- `region_geom['features'][0]['geometry']` extraction and `ee.Geometry`
  construction (services.py:230-231). -/
  geomBuild : Thrown Unit
  /-- environment of the nested `check_dataset_access` call. -/
  cd : CDEnv
  /-- environment of the nested `validate_date_range` call. -/
  val : ValEnv
  /-- `ee.Image(dataset_id).select(variable)` (services.py:269). -/
  imageSelect : Thrown Unit
  /-- `filtered_data.size().getInfo()` (services.py:279). -/
  collFilteredSize : Thrown ℕ
  /-- environment of the nested `get_dataset_temporal_info` call. -/
  temporal : TempEnv
  /-- `ee.batch.Export.image.toDrive(...)` plus `task.start()`
  (services.py:320-334); on success yields `str(task.id)`. -/
  exportSubmit : Thrown String

/-- The session-ensuring step of `start_download_task` (services.py:188-211):
`some msg` is an early `{'error': msg}` return, `none` means execution
continues (in particular, a non-permission `ee.Initialize` failure is
tolerated: "Continue execution as it might already be initialized"). -/
def sessionAbort (project_name : Option String) (env : StartEnv) : Option String :=
  if pyTruthyStr project_name then
    let p := project_name.getD ""
    match env.initOutcome with
    | .ok _ =>
      match env.verifyTest with
      | .ok n =>
        if n ≠ 3 then
          some ("Failed to initialize Earth Engine with project ID: " ++ p
            ++ ". Test operation failed.")
        else none
      | .raises m =>
        if permKeyword m then
          some ("Permission error: Caller does not have required permission to use project "
            ++ p ++ ". Please check your project ID.")
        else none
    | .raises m =>
      if permKeyword m then
        some ("Permission error: Caller does not have required permission to use project "
          ++ p ++ ". Please check your project ID.")
      else none
  else none

/-- The export-submission step of `start_download_task` (services.py:299-347):
output-name derivation, the `toDrive` call with `maxPixels=1e13`, and the
success/failure returns. -/
def submitExportStep (dataset_id start_date end_date bandVar export_format : String)
    (scale : ℤ) (folder_name : String) (env : StartEnv) : StartOut :=
  let output_name := asyncOutputName dataset_id bandVar start_date end_date
  let params : ExportParams :=
    { descr := output_name, folder := folder_name, scale := scale,
      crs := "EPSG:4326", fileFormat := export_format, maxPixels := 10 ^ 13 }
  match env.exportSubmit with
  | .raises m =>
    { res := .err ("Failed to start export task: " ++ m),
      submitted := some params, reachedRegionParse := true }
  | .ok tid =>
    { res := .started tid output_name folder_name
        (output_name ++ "." ++ pyLower export_format),
      submitted := some params, reachedRegionParse := true }

/-- `GEEService.start_download_task` (services.py:143-353). -/
def start_download_task (dataset_id start_date end_date bandVar export_format : String)
    (scale : ℤ) (folder_name : String) (project_name : Option String)
    (env : StartEnv) : StartOut :=
  match sessionAbort project_name env with
  | some m => { res := .err m, submitted := none, reachedRegionParse := false }
  | none =>
    match env.regionLoads with
    | .raises m =>
      { res := .err ("Invalid region format: " ++ m), submitted := none,
        reachedRegionParse := true }
    | .ok .noFeatures =>
      { res := .err "Invalid region format: missing features or invalid structure",
        submitted := none, reachedRegionParse := true }
    | .ok .featuresPresent =>
      match env.geomBuild with
      | .raises m =>
        { res := .err ("Invalid region format: " ++ m), submitted := none,
          reachedRegionParse := true }
      | .ok _ =>
        match check_dataset_access project_name env.cd with
        | .fail e msg =>
          { res := .err (msg.getD e), submitted := none, reachedRegionParse := true }
        | .ok info =>
          if validate_date_range env.val = false then
            { res := .err "Selected date range is not available for this dataset",
              submitted := none, reachedRegionParse := true }
          else
            if decide (info.typ.getD "" = "IMAGE_COLLECTION") = false then
              match env.imageSelect with
              | .raises m =>
                { res := .err ("Failed to process dataset: " ++ m),
                  submitted := none, reachedRegionParse := true }
              | .ok _ =>
                submitExportStep dataset_id start_date end_date bandVar
                  export_format scale folder_name env
            else
              match env.collFilteredSize with
              | .raises m =>
                { res := .err ("Failed to process dataset: " ++ m),
                  submitted := none, reachedRegionParse := true }
              | .ok n =>
                if n = 0 then
                  { res := .err (noDataMessage start_date end_date env.temporal),
                    submitted := none, reachedRegionParse := true }
                else
                  submitExportStep dataset_id start_date end_date bandVar
                    export_format scale folder_name env

/-- The keyword arguments of `image.getDownloadURL` at services.py:996-1003. -/
structure UrlParams where
  name : String
  scale : ℤ
  crs : String
  format : String
  maxPixels : ℤ
deriving DecidableEq

/-- Result dictionary of `get_download_url`. -/
inductive UrlRes where
  | err (msg : String)
  | okUrl (url : String) (filename : String) (folder : String)
deriving DecidableEq

/-- Observable outcome of one `get_download_url` run: its return value and the
`getDownloadURL` attempt (if any) with its parameters. -/
structure UrlOut where
  res : UrlRes
  urlCall : Option UrlParams
deriving DecidableEq

/-- Environment of `GEEService.get_download_url` (services.py:923-1026). -/
structure UrlEnv where
  /-- `ee.Initialize(project=project_name)` (tolerated either way). -/
  initOutcome : Thrown Unit
  /-- `ee.Image(dataset_id).select(variable)` (services.py:956). -/
  imageSelect : Thrown Unit
  /-- `filtered_data.size().getInfo()` (services.py:965). -/
  collFilteredSize : Thrown ℕ
  /-- `geojson.loads(region)` (services.py:977). -/
  regionLoads : Thrown Unit
  /-- `region_geom['features'][0]['geometry']` and `ee.Geometry` (services.py:981). -/
  geomBuild : Thrown Unit
  /-- `image.getDownloadURL({...})` (services.py:996). -/
  urlGen : Thrown String
deriving DecidableEq

/-- The outer handler of `get_download_url` (services.py:1012-1022):
`"permission" in error_msg.lower()` selects the permission message. -/
def urlOuterError (m : String) : String :=
  if strContains (pyLower m) "permission" then
    "Permission error: You may not have access to download this dataset. Try using the Earth Engine Code Editor directly. Error: " ++ m
  else
    "Failed to process or download dataset: " ++ m

/-- The part of `get_download_url` after the image is prepared
(services.py:973-1010): region processing, filename, and the
`getDownloadURL` call with `maxPixels=1e7`. -/
def urlAfterImage (dataset_id start_date end_date bandVar export_format : String)
    (scale : ℤ) (folder_name : String) (env : UrlEnv) : UrlOut :=
  match env.regionLoads with
  | .raises m => { res := .err ("Invalid region format: " ++ m), urlCall := none }
  | .ok _ =>
    match env.geomBuild with
    | .raises m => { res := .err ("Invalid region format: " ++ m), urlCall := none }
    | .ok _ =>
      let output_name := urlOutputName dataset_id bandVar start_date end_date
      let params : UrlParams :=
        { name := output_name, scale := scale, crs := "EPSG:4326",
          format := pyLower export_format, maxPixels := 10 ^ 7 }
      match env.urlGen with
      | .raises m => { res := .err (urlOuterError m), urlCall := some params }
      | .ok url =>
        { res := .okUrl url (output_name ++ "." ++ pyLower export_format) folder_name,
          urlCall := some params }

/-- `GEEService.get_download_url` (services.py:923-1026). -/
def get_download_url (dataset_id start_date end_date bandVar export_format : String)
    (scale : ℤ) (folder_name : String) (project_name : Option String)
    (env : UrlEnv) : UrlOut :=
  match env.imageSelect with
  | .ok _ =>
    urlAfterImage dataset_id start_date end_date bandVar export_format scale
      folder_name env
  | .raises _ =>
    match env.collFilteredSize with
    | .raises m => { res := .err (urlOuterError m), urlCall := none }
    | .ok n =>
      if n = 0 then
        { res := .err "No data available for the selected parameters", urlCall := none }
      else
        urlAfterImage dataset_id start_date end_date bandVar export_format scale
          folder_name env

/-- C2: an export request over a collection asset whose date-filtered,
band-selected collection has size 0 returns the no-data-in-range error, and the
export-submission step is never reached (no `toDrive` call is recorded). -/
theorem start_download_task_no_data_in_range
    (dataset_id start_date end_date bandVar export_format : String)
    (scale : ℤ) (folder_name : String) (project_name : Option String)
    (env : StartEnv) (info : AccessInfo)
    (hsess : sessionAbort project_name env = none)
    (hreg : env.regionLoads = .ok .featuresPresent)
    (hgeom : env.geomBuild = .ok ())
    (hacc : check_dataset_access project_name env.cd = .ok info)
    (htyp : info.typ = some "IMAGE_COLLECTION")
    (hval : validate_date_range env.val = true)
    (hsize : env.collFilteredSize = .ok 0) :
    start_download_task dataset_id start_date end_date bandVar export_format
        scale folder_name project_name env =
      { res := .err (noDataMessage start_date end_date env.temporal),
        submitted := none, reachedRegionParse := true } := by
  simp [start_download_task, hsess, hreg, hgeom, hacc, htyp, hval, hsize]

/-- Witness for C2: a concrete request over an IMAGE_COLLECTION asset whose
filtered collection is empty yields the no-data error and no submission. -/
theorem start_download_task_no_data_in_range_witness :
    start_download_task "MODIS/006/MOD13A2" "2020-01-01" "2020-01-02" "NDVI"
        "GeoTIFF" 1000 "GEE-Downloads" none
      { initOutcome := .ok (), verifyTest := .ok 3,
        regionLoads := .ok .featuresPresent, geomBuild := .ok (),
        cd := { initOutcome := .ok (), imageBands := .raises "not an image",
                collSize := .ok (), getInfo := .ok none },
        val := { getInfo := .raises "metadata unavailable",
                 collDates := .ok none, imageLoad := .ok (),
                 parseStart := .ok 0, parseEnd := .ok 0 },
        imageSelect := .ok (), collFilteredSize := .ok 0,
        temporal := { initOutcome := .ok (), imageTime := .raises "no image",
                      collDates := .raises "no dates", fmtDate := fun _ => "" },
        exportSubmit := .ok "TASKID" } =
      { res := .err "No data available for the selected date range (2020-01-01 to 2020-01-02). Please try a different date range.",
        submitted := none, reachedRegionParse := true } := by
  have h := start_download_task_no_data_in_range "MODIS/006/MOD13A2" "2020-01-01"
    "2020-01-02" "NDVI" "GeoTIFF" 1000 "GEE-Downloads" none
    { initOutcome := .ok (), verifyTest := .ok 3,
      regionLoads := .ok .featuresPresent, geomBuild := .ok (),
      cd := { initOutcome := .ok (), imageBands := .raises "not an image",
              collSize := .ok (), getInfo := .ok none },
      val := { getInfo := .raises "metadata unavailable",
               collDates := .ok none, imageLoad := .ok (),
               parseStart := .ok 0, parseEnd := .ok 0 },
      imageSelect := .ok (), collFilteredSize := .ok 0,
      temporal := { initOutcome := .ok (), imageTime := .raises "no image",
                    collDates := .raises "no dates", fmtDate := fun _ => "" },
      exportSubmit := .ok "TASKID" }
    (typeOnlyInfo "IMAGE_COLLECTION") rfl rfl rfl rfl rfl rfl rfl
  rw [h]
  rfl

/-- C8 counterexample: the claim says every session-establishment failure
aborts the export before region parsing, but a non-permission `ee.Initialize`
failure ("connection timed out") is tolerated and execution continues: the run
below proceeds to region parsing and returns the region error, not a
session-failure error. -/
theorem start_download_task_session_counterexample :
    start_download_task "MODIS/006/MOD13A2" "2020-01-01" "2020-01-02" "NDVI"
        "GeoTIFF" 1000 "GEE-Downloads" (some "my-project")
      { initOutcome := .raises "connection timed out", verifyTest := .ok 3,
        regionLoads := .raises "bad json", geomBuild := .ok (),
        cd := { initOutcome := .ok (), imageBands := .ok (),
                collSize := .ok (), getInfo := .ok none },
        val := { getInfo := .raises "x", collDates := .ok none, imageLoad := .ok (),
                 parseStart := .ok 0, parseEnd := .ok 0 },
        imageSelect := .ok (), collFilteredSize := .ok 1,
        temporal := { initOutcome := .ok (), imageTime := .raises "x",
                      collDates := .raises "x", fmtDate := fun _ => "" },
        exportSubmit := .ok "TASKID" } =
      { res := .err "Invalid region format: bad json", submitted := none,
        reachedRegionParse := true } := by
  decide

/-- C8 amended: only a permission-flavoured session failure (message containing
"Permission denied", "not found" or "does not have required permission"), or a
verification round-trip returning a value other than 3, makes
`start_download_task` return an error without proceeding (no region parsing,
no submission); other session-establishment failures are tolerated and
execution continues. -/
theorem start_download_task_session_aborts
    (dataset_id start_date end_date bandVar export_format : String)
    (scale : ℤ) (folder_name : String) (p : String) (env : StartEnv)
    (hp : p ≠ "") :
    (∀ m, env.initOutcome = .raises m → permKeyword m = true →
      start_download_task dataset_id start_date end_date bandVar export_format
          scale folder_name (some p) env =
        { res := .err ("Permission error: Caller does not have required permission to use project "
            ++ p ++ ". Please check your project ID."),
          submitted := none, reachedRegionParse := false }) ∧
    (∀ n, env.initOutcome = .ok () → env.verifyTest = .ok n → n ≠ 3 →
      start_download_task dataset_id start_date end_date bandVar export_format
          scale folder_name (some p) env =
        { res := .err ("Failed to initialize Earth Engine with project ID: " ++ p
            ++ ". Test operation failed."),
          submitted := none, reachedRegionParse := false }) ∧
    (∀ m, env.initOutcome = .raises m → permKeyword m = false →
      sessionAbort (some p) env = none) := by
  refine ⟨?_, ?_, ?_⟩
  · intro m hinit hkw
    have habort : sessionAbort (some p) env =
        some ("Permission error: Caller does not have required permission to use project "
          ++ p ++ ". Please check your project ID.") := by
      simp [sessionAbort, pyTruthyStr, hp, hinit, hkw]
    simp [start_download_task, habort]
  · intro n hinit hver hne
    have habort : sessionAbort (some p) env =
        some ("Failed to initialize Earth Engine with project ID: " ++ p
          ++ ". Test operation failed.") := by
      simp [sessionAbort, pyTruthyStr, hp, hinit, hver, hne]
    simp [start_download_task, habort]
  · intro m hinit hkw
    simp [sessionAbort, pyTruthyStr, hp, hinit, hkw]

/-- Witness for the amended C8: a permission-flavoured initialization failure
aborts before region parsing, and a verification mismatch aborts likewise. -/
theorem start_download_task_session_aborts_witness :
    (start_download_task "A/B" "2020-01-01" "2020-01-01" "b" "GeoTIFF" 1000
        "GEE-Downloads" (some "proj")
      { initOutcome := .raises "Permission denied on project", verifyTest := .ok 3,
        regionLoads := .ok .featuresPresent, geomBuild := .ok (),
        cd := { initOutcome := .ok (), imageBands := .ok (),
                collSize := .ok (), getInfo := .ok none },
        val := { getInfo := .raises "x", collDates := .ok none, imageLoad := .ok (),
                 parseStart := .ok 0, parseEnd := .ok 0 },
        imageSelect := .ok (), collFilteredSize := .ok 1,
        temporal := { initOutcome := .ok (), imageTime := .raises "x",
                      collDates := .raises "x", fmtDate := fun _ => "" },
        exportSubmit := .ok "T" } =
      { res := .err "Permission error: Caller does not have required permission to use project proj. Please check your project ID.",
        submitted := none, reachedRegionParse := false }) ∧
    (start_download_task "A/B" "2020-01-01" "2020-01-01" "b" "GeoTIFF" 1000
        "GEE-Downloads" (some "proj")
      { initOutcome := .ok (), verifyTest := .ok 7,
        regionLoads := .ok .featuresPresent, geomBuild := .ok (),
        cd := { initOutcome := .ok (), imageBands := .ok (),
                collSize := .ok (), getInfo := .ok none },
        val := { getInfo := .raises "x", collDates := .ok none, imageLoad := .ok (),
                 parseStart := .ok 0, parseEnd := .ok 0 },
        imageSelect := .ok (), collFilteredSize := .ok 1,
        temporal := { initOutcome := .ok (), imageTime := .raises "x",
                      collDates := .raises "x", fmtDate := fun _ => "" },
        exportSubmit := .ok "T" } =
      { res := .err "Failed to initialize Earth Engine with project ID: proj. Test operation failed.",
        submitted := none, reachedRegionParse := false }) := by
  constructor
  · exact (start_download_task_session_aborts "A/B" "2020-01-01" "2020-01-01" "b"
      "GeoTIFF" 1000 "GEE-Downloads" "proj"
      { initOutcome := .raises "Permission denied on project", verifyTest := .ok 3,
        regionLoads := .ok .featuresPresent, geomBuild := .ok (),
        cd := { initOutcome := .ok (), imageBands := .ok (),
                collSize := .ok (), getInfo := .ok none },
        val := { getInfo := .raises "x", collDates := .ok none, imageLoad := .ok (),
                 parseStart := .ok 0, parseEnd := .ok 0 },
        imageSelect := .ok (), collFilteredSize := .ok 1,
        temporal := { initOutcome := .ok (), imageTime := .raises "x",
                      collDates := .raises "x", fmtDate := fun _ => "" },
        exportSubmit := .ok "T" } (by decide)).1
      "Permission denied on project" rfl (by decide)
  · exact (start_download_task_session_aborts "A/B" "2020-01-01" "2020-01-01" "b"
      "GeoTIFF" 1000 "GEE-Downloads" "proj"
      { initOutcome := .ok (), verifyTest := .ok 7,
        regionLoads := .ok .featuresPresent, geomBuild := .ok (),
        cd := { initOutcome := .ok (), imageBands := .ok (),
                collSize := .ok (), getInfo := .ok none },
        val := { getInfo := .raises "x", collDates := .ok none, imageLoad := .ok (),
                 parseStart := .ok 0, parseEnd := .ok 0 },
        imageSelect := .ok (), collFilteredSize := .ok 1,
        temporal := { initOutcome := .ok (), imageTime := .raises "x",
                      collDates := .raises "x", fmtDate := fun _ => "" },
        exportSubmit := .ok "T" } (by decide)).2.1
      7 rfl rfl (by decide)

/-- C9: every `toDrive` submission recorded by `start_download_task` carries
`maxPixels = 1e13`, every `getDownloadURL` call recorded by `get_download_url`
carries `maxPixels = 1e7`, and the two ceilings differ. -/
theorem max_pixels_by_path
    (dataset_id start_date end_date bandVar export_format : String)
    (scale : ℤ) (folder_name : String) (project_name : Option String)
    (env : StartEnv) (uenv : UrlEnv) :
    (∀ p, (start_download_task dataset_id start_date end_date bandVar
        export_format scale folder_name project_name env).submitted = some p →
      p.maxPixels = 10 ^ 13) ∧
    (∀ q, (get_download_url dataset_id start_date end_date bandVar
        export_format scale folder_name project_name uenv).urlCall = some q →
      q.maxPixels = 10 ^ 7) ∧
    ((10 : ℤ) ^ 13 ≠ 10 ^ 7) := by
  refine ⟨?_, ?_, by decide⟩
  · intro p hp
    unfold start_download_task submitExportStep at hp
    repeat' split at hp
    all_goals simp_all
    all_goals (cases hp; rfl)
  · intro q hq
    unfold get_download_url urlAfterImage at hq
    repeat' split at hq
    all_goals simp_all
    all_goals (cases hq; rfl)

/-- Witness for C9: concrete runs of both paths that reach the remote call. -/
theorem max_pixels_by_path_witness :
    (start_download_task "A/B/C" "2020-01-01" "2020-01-02" "temp" "GeoTIFF" 1000
        "GEE-Downloads" none
      { initOutcome := .ok (), verifyTest := .ok 3,
        regionLoads := .ok .featuresPresent, geomBuild := .ok (),
        cd := { initOutcome := .ok (), imageBands := .ok (),
                collSize := .ok (), getInfo := .ok none },
        val := { getInfo := .raises "x", collDates := .ok none, imageLoad := .ok (),
                 parseStart := .ok 0, parseEnd := .ok 0 },
        imageSelect := .ok (), collFilteredSize := .ok 1,
        temporal := { initOutcome := .ok (), imageTime := .raises "x",
                      collDates := .raises "x", fmtDate := fun _ => "" },
        exportSubmit := .ok "TASK42" }).submitted =
      some { descr := "C_temp_2020-01-01_to_2020-01-02", folder := "GEE-Downloads",
             scale := 1000, crs := "EPSG:4326", fileFormat := "GeoTIFF",
             maxPixels := 10 ^ 13 } ∧
    ({ descr := "C_temp_2020-01-01_to_2020-01-02", folder := "GEE-Downloads",
       scale := 1000, crs := "EPSG:4326", fileFormat := "GeoTIFF",
       maxPixels := (10 : ℤ) ^ 13 } : ExportParams).maxPixels = 10 ^ 13 ∧
    (get_download_url "A/B/C" "2020-01-01" "2020-01-02" "temp" "GeoTIFF" 1000
        "GEE-Downloads" none
      { initOutcome := .ok (), imageSelect := .ok (), collFilteredSize := .ok 1,
        regionLoads := .ok (), geomBuild := .ok (),
        urlGen := .ok "https://earthengine.example/download" }).urlCall =
      some { name := "C_temp_2020-01-01_2020-01-02", scale := 1000,
             crs := "EPSG:4326", format := "geotiff", maxPixels := 10 ^ 7 } ∧
    ({ name := "C_temp_2020-01-01_2020-01-02", scale := 1000,
       crs := "EPSG:4326", format := "geotiff",
       maxPixels := (10 : ℤ) ^ 7 } : UrlParams).maxPixels = 10 ^ 7 := by
  refine ⟨by decide, ?_, by decide, ?_⟩
  · exact (max_pixels_by_path "A/B/C" "2020-01-01" "2020-01-02" "temp" "GeoTIFF"
      1000 "GEE-Downloads" none
      { initOutcome := .ok (), verifyTest := .ok 3,
        regionLoads := .ok .featuresPresent, geomBuild := .ok (),
        cd := { initOutcome := .ok (), imageBands := .ok (),
                collSize := .ok (), getInfo := .ok none },
        val := { getInfo := .raises "x", collDates := .ok none, imageLoad := .ok (),
                 parseStart := .ok 0, parseEnd := .ok 0 },
        imageSelect := .ok (), collFilteredSize := .ok 1,
        temporal := { initOutcome := .ok (), imageTime := .raises "x",
                      collDates := .raises "x", fmtDate := fun _ => "" },
        exportSubmit := .ok "TASK42" }
      { initOutcome := .ok (), imageSelect := .ok (), collFilteredSize := .ok 1,
        regionLoads := .ok (), geomBuild := .ok (),
        urlGen := .ok "https://earthengine.example/download" }).1 _ (by decide)
  · exact (max_pixels_by_path "A/B/C" "2020-01-01" "2020-01-02" "temp" "GeoTIFF"
      1000 "GEE-Downloads" none
      { initOutcome := .ok (), verifyTest := .ok 3,
        regionLoads := .ok .featuresPresent, geomBuild := .ok (),
        cd := { initOutcome := .ok (), imageBands := .ok (),
                collSize := .ok (), getInfo := .ok none },
        val := { getInfo := .raises "x", collDates := .ok none, imageLoad := .ok (),
                 parseStart := .ok 0, parseEnd := .ok 0 },
        imageSelect := .ok (), collFilteredSize := .ok 1,
        temporal := { initOutcome := .ok (), imageTime := .raises "x",
                      collDates := .raises "x", fmtDate := fun _ => "" },
        exportSubmit := .ok "TASK42" }
      { initOutcome := .ok (), imageSelect := .ok (), collFilteredSize := .ok 1,
        regionLoads := .ok (), geomBuild := .ok (),
        urlGen := .ok "https://earthengine.example/download" }).2.1 _ (by decide)

/-- C7 counterexample: the claim asserts the `_to_`/collapsed naming for the
`get_download_url` path too, but that path joins base, band, start and end with
plain underscores: for asset "A/B/C", band "temp" and equal dates the derived
name is "C_temp_2020-01-01_2020-01-01", not the claimed "C_temp_2020-01-01". -/
theorem get_download_url_name_counterexample :
    get_download_url "A/B/C" "2020-01-01" "2020-01-01" "temp" "GeoTIFF" 1000
        "GEE-Downloads" none
      { initOutcome := .ok (), imageSelect := .ok (), collFilteredSize := .ok 1,
        regionLoads := .ok (), geomBuild := .ok (),
        urlGen := .ok "https://earthengine.example/download" } =
      { res := .okUrl "https://earthengine.example/download"
          "C_temp_2020-01-01_2020-01-01.geotiff" "GEE-Downloads",
        urlCall := some { name := "C_temp_2020-01-01_2020-01-01", scale := 1000,
                          crs := "EPSG:4326", format := "geotiff",
                          maxPixels := 10 ^ 7 } } ∧
    urlOutputName "A/B/C" "temp" "2020-01-01" "2020-01-01" ≠ "C_temp_2020-01-01" ∧
    asyncOutputName "A/B/C" "temp" "2020-01-01" "2020-01-01" = "C_temp_2020-01-01" := by
  refine ⟨by decide, by decide, by decide⟩

/-- C7 amended: the derived output name is deterministic in both paths, but the
two paths use different formats: the asynchronous path uses the last path
segment, band and dates with the `_to_` separator (collapsed when the dates
agree), while `get_download_url` always joins base, band, start and end with
plain underscores. -/
theorem output_name_by_path (bandVar start_date end_date : String) :
    asyncOutputName "A/B/C" bandVar start_date end_date =
      "C" ++ "_" ++ bandVar ++ "_" ++
        (if start_date = end_date then start_date
         else start_date ++ "_to_" ++ end_date) ∧
    urlOutputName "A/B/C" bandVar start_date end_date =
      "C" ++ "_" ++ bandVar ++ "_" ++ start_date ++ "_" ++ end_date ∧
    asyncOutputName "A/B/C" "temp" "2020-01-01" "2020-01-01" = "C_temp_2020-01-01" ∧
    asyncOutputName "A/B/C" "temp" "2020-01-01" "2020-01-31" =
      "C_temp_2020-01-01_to_2020-01-31" ∧
    urlOutputName "A/B/C" "temp" "2020-01-01" "2020-01-31" =
      "C_temp_2020-01-01_2020-01-31" := by
  have hbase : filenameBase "A/B/C" = "C" := by decide
  refine ⟨?_, ?_, by decide, by decide, by decide⟩
  · simp only [asyncOutputName, hbase]
  · simp only [urlOutputName, hbase]

/-- The engine-reported `progress` value of a task dictionary: the key may be
absent (`task.get('progress', 0)` yields 0), `None`, an int, or a float. -/
inductive PVal where
  | absent
  | noneVal
  | intVal (n : ℤ)
  | floatVal (q : ℚ)
deriving DecidableEq

/-- One task dictionary from `ee.data.getTaskList()`; `id` holds `str(t['id'])`
when the key is present. -/
structure TaskRec where
  id : Option String
  state : Option String
  progress : PVal
  errMsg : Option String
deriving DecidableEq

/-- One entry of the remote task list: the scan skips entries that are not
dictionaries (services.py:418). -/
inductive TaskItem where
  | notDict
  | dict (r : TaskRec)
deriving DecidableEq

/-- Environment of `GEEService.get_task_status` (services.py:355-478). -/
structure TsEnv where
  /-- `ee.Initialize(project=...)` (services.py:380 or 392); failures are
  tolerated in both branches. -/
  initOutcome : Thrown Unit
  /-- `ee.data.getTaskList()` (services.py:400). -/
  taskList : Thrown (List TaskItem)
deriving DecidableEq

/-- Remote interactions of one `get_task_status` run, in order. -/
inductive TsEvent where
  | init (project : String)
  | fetchTasks
deriving DecidableEq

/-- The status dictionary returned by `get_task_status`. -/
structure TaskStatus where
  status : String
  progress : ℤ
  error : Option String
deriving DecidableEq

/-- The linear scan at services.py:415-423: first dictionary entry whose
stringified id equals `task_id`. -/
def findTask (task_id : String) : List TaskItem → Option TaskRec
  | [] => none
  | .notDict :: rest => findTask task_id rest
  | .dict r :: rest =>
    match r.id with
    | some i => if i = task_id then some r else findTask task_id rest
    | none => findTask task_id rest

/-- The state→progress derivation at services.py:444-456. -/
def deriveProgress (state : String) (pv : PVal) : ℤ :=
  if state = "COMPLETED" then 100
  else if state = "FAILED" ∨ state = "CANCELLED" then 0
  else
    match pv with
    | .absent => 0
    | .noneVal => 0
    | .intVal n => n
    | .floatVal q => pyInt (q * 100)

/-- `GEEService.get_task_status` (services.py:355-478), returning the status
dictionary together with the ordered trace of remote interactions.  When no
truthy project name is supplied, the session is re-initialized with the
hard-coded default project id "ee-thrcle421" (services.py:388-397). -/
def get_task_status (task_id : String) (project_name : Option String)
    (env : TsEnv) : TaskStatus × List TsEvent :=
  let proj := if pyTruthyStr project_name then project_name.getD ""
              else "ee-thrcle421"
  let events := [TsEvent.init proj, TsEvent.fetchTasks]
  let status : TaskStatus :=
    match env.taskList with
    | .raises m =>
      ⟨"FAILED", 0, some ("Error checking task status: " ++ m)⟩
    | .ok tasks =>
      match findTask task_id tasks with
      | none =>
        ⟨"FAILED", 0, some "Task not found or may have expired"⟩
      | some r =>
        let state := r.state.getD "UNKNOWN"
        ⟨state, deriveProgress state r.progress, r.errMsg⟩
  (status, events)

/-- The project-id resolution of the status view (views.py:150-162):
request parameter, then session, then the literal default "ee-thrcle421". -/
def viewEffectiveProject (reqProj sessProj : Option String) : String :=
  if pyTruthyStr reqProj then reqProj.getD ""
  else if pyTruthyStr sessProj then sessProj.getD ""
  else "ee-thrcle421"

/-- C5: an unknown job id yields exactly
`{status: FAILED, progress: 0, error: "Task not found or may have expired"}`,
and an internal failure (the task-list fetch raising) degrades to a FAILED
status with progress 0 and a diagnostic string — the function is total, so no
exception reaches the caller. -/
theorem get_task_status_not_found_never_raises (task_id : String)
    (project_name : Option String) (env : TsEnv) :
    (∀ tasks, env.taskList = .ok tasks → findTask task_id tasks = none →
      (get_task_status task_id project_name env).1 =
        ⟨"FAILED", 0, some "Task not found or may have expired"⟩) ∧
    (∀ m, env.taskList = .raises m →
      (get_task_status task_id project_name env).1 =
        ⟨"FAILED", 0, some ("Error checking task status: " ++ m)⟩) := by
  constructor
  · intro tasks hl hf
    simp [get_task_status, hl, hf]
  · intro m hl
    simp [get_task_status, hl]

/-- Witness for C5: a task list without the requested id, and a failing fetch. -/
theorem get_task_status_not_found_never_raises_witness :
    ((get_task_status "JOB1" none
      { initOutcome := .ok (),
        taskList := .ok [.notDict,
          .dict { id := some "OTHER", state := some "RUNNING",
                  progress := .intVal 5, errMsg := none }] }).1 =
      ⟨"FAILED", 0, some "Task not found or may have expired"⟩) ∧
    ((get_task_status "JOB1" none
      { initOutcome := .ok (), taskList := .raises "backend down" }).1 =
      ⟨"FAILED", 0, some "Error checking task status: backend down"⟩) := by
  constructor
  · exact (get_task_status_not_found_never_raises "JOB1" none
      { initOutcome := .ok (),
        taskList := .ok [.notDict,
          .dict { id := some "OTHER", state := some "RUNNING",
                  progress := .intVal 5, errMsg := none }] }).1
      [.notDict,
        .dict { id := some "OTHER", state := some "RUNNING",
                progress := .intVal 5, errMsg := none }] rfl (by decide)
  · exact (get_task_status_not_found_never_raises "JOB1" none
      { initOutcome := .ok (), taskList := .raises "backend down" }).2
      "backend down" rfl

/-- C6: for a task found in the list, the returned progress is derived from the
reported state: COMPLETED yields 100; FAILED or CANCELLED yields 0; any other
state yields the engine-reported progress, with 0 substituted when it is
absent or None, an int passed through, and a float fraction multiplied by 100
and truncated to an integer. -/
theorem get_task_status_progress_derivation (task_id : String)
    (project_name : Option String) (env : TsEnv) (tasks : List TaskItem)
    (r : TaskRec) (hl : env.taskList = .ok tasks)
    (hf : findTask task_id tasks = some r) :
    (get_task_status task_id project_name env).1.status = r.state.getD "UNKNOWN" ∧
    (r.state.getD "UNKNOWN" = "COMPLETED" →
      (get_task_status task_id project_name env).1.progress = 100) ∧
    (r.state.getD "UNKNOWN" = "FAILED" ∨ r.state.getD "UNKNOWN" = "CANCELLED" →
      (get_task_status task_id project_name env).1.progress = 0) ∧
    (r.state.getD "UNKNOWN" ≠ "COMPLETED" →
      r.state.getD "UNKNOWN" ≠ "FAILED" → r.state.getD "UNKNOWN" ≠ "CANCELLED" →
      (get_task_status task_id project_name env).1.progress =
        match r.progress with
        | .absent => 0
        | .noneVal => 0
        | .intVal n => n
        | .floatVal q => pyInt (q * 100)) := by
  have hout : (get_task_status task_id project_name env).1 =
      ⟨r.state.getD "UNKNOWN", deriveProgress (r.state.getD "UNKNOWN") r.progress,
        r.errMsg⟩ := by
    simp [get_task_status, hl, hf]
  refine ⟨by rw [hout], ?_, ?_, ?_⟩
  · intro h
    rw [hout]
    simp [deriveProgress, h]
  · intro h
    rw [hout]
    rcases h with h | h <;> simp [deriveProgress, h]
  · intro h1 h2 h3
    rw [hout]
    have hcz : ¬(r.state.getD "UNKNOWN" = "FAILED" ∨ r.state.getD "UNKNOWN" = "CANCELLED") := by
      intro hc
      rcases hc with hc | hc
      · exact h2 hc
      · exact h3 hc
    simp only [deriveProgress, if_neg h1, if_neg hcz]

/-- Witness for C6: a COMPLETED task reports 100, a CANCELLED one 0, and a
RUNNING one with float progress 0.456 reports 45 (45.6 truncated). -/
theorem get_task_status_progress_derivation_witness :
    ((get_task_status "J" none
      { initOutcome := .ok (),
        taskList := .ok [.dict { id := some "J", state := some "COMPLETED",
                                 progress := .absent, errMsg := none }] }).1.progress
      = 100) ∧
    ((get_task_status "J" none
      { initOutcome := .ok (),
        taskList := .ok [.dict { id := some "J", state := some "CANCELLED",
                                 progress := .intVal 7, errMsg := none }] }).1.progress
      = 0) ∧
    ((get_task_status "J" none
      { initOutcome := .ok (),
        taskList := .ok [.dict { id := some "J", state := some "RUNNING",
                                 progress := .floatVal (456 / 1000),
                                 errMsg := none }] }).1.progress = 45) := by
  refine ⟨?_, ?_, ?_⟩
  · exact (get_task_status_progress_derivation "J" none
      { initOutcome := .ok (),
        taskList := .ok [.dict { id := some "J", state := some "COMPLETED",
                                 progress := .absent, errMsg := none }] }
      [.dict { id := some "J", state := some "COMPLETED",
               progress := .absent, errMsg := none }]
      { id := some "J", state := some "COMPLETED",
        progress := .absent, errMsg := none }
      rfl rfl).2.1 (by decide)
  · exact (get_task_status_progress_derivation "J" none
      { initOutcome := .ok (),
        taskList := .ok [.dict { id := some "J", state := some "CANCELLED",
                                 progress := .intVal 7, errMsg := none }] }
      [.dict { id := some "J", state := some "CANCELLED",
               progress := .intVal 7, errMsg := none }]
      { id := some "J", state := some "CANCELLED",
        progress := .intVal 7, errMsg := none }
      rfl rfl).2.2.1 (Or.inr (by decide))
  · have h := (get_task_status_progress_derivation "J" none
      { initOutcome := .ok (),
        taskList := .ok [.dict { id := some "J", state := some "RUNNING",
                                 progress := .floatVal (456 / 1000),
                                 errMsg := none }] }
      [.dict { id := some "J", state := some "RUNNING",
               progress := .floatVal (456 / 1000), errMsg := none }]
      { id := some "J", state := some "RUNNING",
        progress := .floatVal (456 / 1000), errMsg := none }
      rfl rfl).2.2.2 (by decide) (by decide) (by decide)
    rw [h]
    norm_num [pyInt]

/-- C10: a `get_task_status` call without a truthy project identity attempts to
re-initialize the session with the hard-coded default project "ee-thrcle421"
before fetching the task list; and the status view falls back to the same
literal when neither the request nor the session supplies a project id. -/
theorem default_project_fallback (task_id : String) (project_name : Option String)
    (env : TsEnv) (reqProj sessProj : Option String) :
    (pyTruthyStr project_name = false →
      (get_task_status task_id project_name env).2 =
        [TsEvent.init "ee-thrcle421", TsEvent.fetchTasks]) ∧
    (pyTruthyStr reqProj = false → pyTruthyStr sessProj = false →
      viewEffectiveProject reqProj sessProj = "ee-thrcle421") := by
  constructor
  · intro h
    simp [get_task_status, h]
  · intro h1 h2
    simp [viewEffectiveProject, h1, h2]

/-- Witness for C10: a call with no project name initializes with the default
project id before fetching, and the view defaults likewise (even when the
session holds an empty, falsy project id). -/
theorem default_project_fallback_witness :
    ((get_task_status "J" none
      { initOutcome := .raises "init failed", taskList := .ok [] }).2 =
      [TsEvent.init "ee-thrcle421", TsEvent.fetchTasks]) ∧
    viewEffectiveProject none (some "") = "ee-thrcle421" := by
  constructor
  · exact (default_project_fallback "J" none
      { initOutcome := .raises "init failed", taskList := .ok [] } none none).1 rfl
  · exact (default_project_fallback "J" none
      { initOutcome := .raises "init failed", taskList := .ok [] } none
      (some "")).2 rfl (by decide)
